import Mathlib

/-!
Verification of the TrifectaOmni arbitrage profitability engine
(`omni_trifecta/execution/arbitrage_calculator.py`).

All monetary quantities are modelled as exact rationals. Python float
division by zero raises an exception; where the source guards every
division (the Zone-6 calculator), functions are embedded as pure rational
functions, and where the source can raise (the legacy multi-hop
calculators, and the Universal pipeline through its unguarded
`price_spread_bps` division by `price_buy`), the embedding returns an
`Option` whose `none` models the raised `ZeroDivisionError`.
-/

namespace TrifectaOmni

/-- Checked division modelling Python float division, which raises
`ZeroDivisionError` on a zero denominator. -/
def qdiv? (a b : ℚ) : Option ℚ :=
  if b = 0 then none else some (a / b)

/-! ## Zone-6 data model (`TotalCostOfExecution`, `LiquidityDepth`, `Zone6Result`) -/

/-- `TotalCostOfExecution` dataclass: gas, flash-loan fee, bridge fee, MEV bribe. -/
structure TotalCostOfExecution where
  gas_cost : ℚ := 0
  flash_loan_fee : ℚ := 0
  bridge_fee : ℚ := 0
  mev_bribe : ℚ := 0
  deriving DecidableEq, Repr

/-- `TotalCostOfExecution.total` property: the additive total cost. -/
def TotalCostOfExecution.total (c : TotalCostOfExecution) : ℚ :=
  c.gas_cost + c.flash_loan_fee + c.bridge_fee + c.mev_bribe

/-- `LiquidityDepth` dataclass: pool TVL and token reserves. -/
structure LiquidityDepth where
  tvl : ℚ
  token_reserve_a : ℚ
  token_reserve_b : ℚ
  deriving DecidableEq, Repr

/-- `LiquidityDepth.calculate_dynamic_slippage`: constant-product slippage
`S = dx / (x + dx)`, with maximal slippage `1.0` for an empty pool. -/
def LiquidityDepth.calculate_dynamic_slippage (ld : LiquidityDepth) (trade_size : ℚ) : ℚ :=
  if ld.tvl ≤ 0 then 1
  else trade_size / (ld.tvl + trade_size)

/-- `LiquidityDepth.is_trade_size_safe`: trade size at most `max_tvl_pct` of TVL. -/
def LiquidityDepth.is_trade_size_safe (ld : LiquidityDepth) (trade_size : ℚ)
    (max_tvl_pct : ℚ) : Bool :=
  if ld.tvl ≤ 0 then false
  else decide (trade_size / ld.tvl ≤ max_tvl_pct)

/-- `LiquidityDepth.get_optimal_trade_size`: solve `S = dx/(x+dx)` for `dx`. -/
def LiquidityDepth.get_optimal_trade_size (ld : LiquidityDepth) (target_slippage : ℚ) : ℚ :=
  if 1 ≤ target_slippage ∨ target_slippage ≤ 0 then 0
  else (target_slippage * ld.tvl) / (1 - target_slippage)

/-- `FlashLoanSource` enum. -/
inductive FlashLoanSource
  | dydx
  | balancer
  | uniswap
  | aave
  | maker
  deriving DecidableEq, Repr

/-- `ChainType` enum. -/
inductive ChainType
  | ethereum_mainnet
  | arbitrum
  | optimism
  | polygon
  | base
  | bsc
  deriving DecidableEq, Repr

/-- `FlashLoanSourceConfig` dataclass. -/
structure FlashLoanSourceConfig where
  source : FlashLoanSource
  fee_rate : ℚ
  max_loan_usd : ℚ
  min_loan_usd : ℚ
  available : Bool := true
  deriving DecidableEq, Repr

/-- `FlashLoanSourceConfig.get_default_sources`: default sources, lowest fee first. -/
def FlashLoanSourceConfig.get_default_sources : List FlashLoanSourceConfig :=
  [ ⟨FlashLoanSource.dydx, 0, 100000000, 10000, true⟩,
    ⟨FlashLoanSource.balancer, 0, 50000000, 5000, true⟩,
    ⟨FlashLoanSource.uniswap, 0.0005, 25000000, 1000, true⟩,
    ⟨FlashLoanSource.aave, 0.0009, 500000000, 100, true⟩ ]

/-- `ChainConfig` dataclass. -/
structure ChainConfig where
  chain : ChainType
  avg_gas_cost_usd : ℚ
  block_time_seconds : ℚ
  is_l2 : Bool
  recommended_min_trade_usd : ℚ
  deriving DecidableEq, Repr

/-- `ChainConfig.get_default_chains`. -/
def ChainConfig.get_default_chains : List ChainConfig :=
  [ ⟨ChainType.arbitrum, 0.10, 0.25, true, 1000⟩,
    ⟨ChainType.optimism, 0.15, 2.0, true, 1000⟩,
    ⟨ChainType.polygon, 0.02, 2.0, true, 500⟩,
    ⟨ChainType.base, 0.05, 2.0, true, 500⟩,
    ⟨ChainType.bsc, 0.10, 3.0, false, 1000⟩,
    ⟨ChainType.ethereum_mainnet, 50.0, 12.0, false, 1000000⟩ ]

/-- `Zone6Result` dataclass. The Python f-string abort reasons embed formatted
numbers; here only their fixed leading text is kept. -/
structure Zone6Result where
  gross_profit : ℚ
  net_profit : ℚ
  profit_bps : ℚ
  volume : ℚ
  price_a : ℚ
  price_b : ℚ
  price_spread_pct : ℚ
  dynamic_slippage : ℚ
  slippage_cost : ℚ
  cost_of_execution : TotalCostOfExecution
  is_profitable : Bool
  passed_gas_check : Bool
  passed_slippage_guard : Bool
  recommended_flash_source : Option FlashLoanSource := none
  recommended_chain : Option ChainType := none
  abort_reason : Option String := none
  deriving DecidableEq, Repr

/-! ## `OmniArbV2Calculator` -/

/-- `OmniArbV2Calculator` constructor parameters. The flash-source and chain
configuration lists are always initialised to the defaults. -/
structure OmniArbV2Calculator where
  min_profit_bps : ℚ := 30
  gas_safety_multiplier : ℚ := 1.5
  max_tvl_pct : ℚ := 0.10
  target_slippage : ℚ := 0.005
  safety_margin : ℚ := 0.20
  deriving DecidableEq, Repr

/-- The calculator with all constructor defaults. -/
def defaultV2 : OmniArbV2Calculator := {}

/-- `OmniArbV2Calculator._select_best_flash_source`: first available source
whose loan bracket contains the volume (list is sorted lowest fee first). -/
def OmniArbV2Calculator._select_best_flash_source (_calc : OmniArbV2Calculator)
    (volume : ℚ) : Option FlashLoanSourceConfig :=
  FlashLoanSourceConfig.get_default_sources.find? fun s =>
    s.available && decide (s.min_loan_usd ≤ volume) && decide (volume ≤ s.max_loan_usd)

/-- `OmniArbV2Calculator._select_best_chain`: first L2 chain meeting the
minimum trade size with gas below the current estimate; otherwise mainnet
above one million USD, else Arbitrum. -/
def OmniArbV2Calculator._select_best_chain (_calc : OmniArbV2Calculator)
    (volume current_gas : ℚ) : ChainType :=
  match ChainConfig.get_default_chains.find? (fun c =>
      decide (c.recommended_min_trade_usd ≤ volume) && c.is_l2 &&
      decide (c.avg_gas_cost_usd < current_gas)) with
  | some c => c.chain
  | none => if 1000000 ≤ volume then ChainType.ethereum_mainnet else ChainType.arbitrum

/-- `OmniArbV2Calculator._create_abort_result`. -/
def OmniArbV2Calculator._create_abort_result (_calc : OmniArbV2Calculator)
    (reason : String) (price_a price_b volume : ℚ)
    (cost : TotalCostOfExecution) : Zone6Result :=
  { gross_profit := 0
    net_profit := 0
    profit_bps := 0
    volume := volume
    price_a := price_a
    price_b := price_b
    price_spread_pct := if 0 < price_b then (price_a - price_b) / price_b * 100 else 0
    dynamic_slippage := 0
    slippage_cost := 0
    cost_of_execution := cost
    is_profitable := false
    passed_gas_check := false
    passed_slippage_guard := false
    abort_reason := some reason }

/-- `OmniArbV2Calculator.calculate_zone6_profit`: the Zone-6 real-yield
evaluation. The source first assigns a normalized-by-price gross profit and
immediately overwrites it with the tokens-bought form guarded by
`price_b > 0`; the shadowed binding is reproduced below. -/
def OmniArbV2Calculator.calculate_zone6_profit (c : OmniArbV2Calculator)
    (price_a price_b volume : ℚ) (liquidity_depth : LiquidityDepth)
    (cost_of_execution : TotalCostOfExecution) : Zone6Result :=
  if price_a ≤ 0 ∨ price_b ≤ 0 ∨ volume ≤ 0 then
    c._create_abort_result "Invalid input: prices and volume must be positive"
      price_a price_b volume cost_of_execution
  else
    let price_spread_pct := (price_a - price_b) / price_b * 100
    let dynamic_slippage := liquidity_depth.calculate_dynamic_slippage volume
    let passed_slippage_guard := liquidity_depth.is_trade_size_safe volume c.max_tvl_pct
    let price_diff := price_a - price_b
    let slippage_multiplier := 1 - dynamic_slippage
    let _gross_profit_normalized := price_diff * volume * slippage_multiplier / price_a
    let gross_profit := if 0 < price_b then
        let tokens_bought := volume / price_b
        let usd_from_sell := tokens_bought * price_a * slippage_multiplier
        usd_from_sell - volume
      else (0 : ℚ)
    let slippage_cost := volume * dynamic_slippage
    let total_execution_cost := cost_of_execution.total
    let net_profit := gross_profit - total_execution_cost
    let expected_profit := gross_profit
    let gas_threshold := cost_of_execution.gas_cost * c.gas_safety_multiplier
    let passed_gas_check := decide (gas_threshold ≤ expected_profit)
    let profit_bps := if 0 < volume then net_profit / volume * 10000 else 0
    let is_profitable := decide (0 < net_profit) && passed_gas_check &&
      passed_slippage_guard && decide (c.min_profit_bps ≤ profit_bps)
    let recommended_flash_config := c._select_best_flash_source volume
    let recommended_flash := recommended_flash_config.map (·.source)
    let recommended_chain := c._select_best_chain volume cost_of_execution.gas_cost
    let abort_reason : Option String :=
      if is_profitable then none
      else if !passed_gas_check then some "Gas check failed"
      else if !passed_slippage_guard then some "Slippage guard failed"
      else if net_profit ≤ 0 then some "Net profit negative"
      else some "Profit too low"
    { gross_profit := gross_profit
      net_profit := net_profit
      profit_bps := profit_bps
      volume := volume
      price_a := price_a
      price_b := price_b
      price_spread_pct := price_spread_pct
      dynamic_slippage := dynamic_slippage
      slippage_cost := slippage_cost
      cost_of_execution := cost_of_execution
      is_profitable := is_profitable
      passed_gas_check := passed_gas_check
      passed_slippage_guard := passed_slippage_guard
      recommended_flash_source := recommended_flash
      recommended_chain := some recommended_chain
      abort_reason := abort_reason }

/-- `OmniArbV2Calculator.optimize_trade_size` candidate fractions: the fixed
sweep of the slippage-bounded maximum volume. -/
def sweep_fractions : List ℚ :=
  [0.01, 0.02, 0.05, 0.10, 0.15, 0.20, 0.30, 0.50, 0.75, 1.0]

/-- One candidate evaluation inside `optimize_trade_size`: the execution cost
for a test volume is the fixed gas cost plus the size-scaled flash fee. -/
def OmniArbV2Calculator.sweepEval (c : OmniArbV2Calculator)
    (price_a price_b : ℚ) (liquidity_depth : LiquidityDepth)
    (gas_cost_usd flash_fee_rate : ℚ) (test_volume : ℚ) : Zone6Result :=
  c.calculate_zone6_profit price_a price_b test_volume liquidity_depth
    { gas_cost := gas_cost_usd, flash_loan_fee := test_volume * flash_fee_rate }

/-- One iteration of the volume sweep of `optimize_trade_size`: skip
non-positive test volumes, otherwise keep the strictly better candidate. -/
def OmniArbV2Calculator.sweepStep (c : OmniArbV2Calculator)
    (price_a price_b : ℚ) (liquidity_depth : LiquidityDepth)
    (gas_cost_usd flash_fee_rate max_volume : ℚ)
    (best : Option (ℚ × Zone6Result)) (pct : ℚ) : Option (ℚ × Zone6Result) :=
  let test_volume := max_volume * pct
  if test_volume ≤ 0 then best
  else
    let result := c.sweepEval price_a price_b liquidity_depth gas_cost_usd
      flash_fee_rate test_volume
    match best with
    | none => some (test_volume, result)
    | some (best_volume, best_result) =>
      if best_result.net_profit < result.net_profit then some (test_volume, result)
      else some (best_volume, best_result)

/-- `OmniArbV2Calculator.optimize_trade_size`: sweep the fixed candidate
fractions of the slippage-bounded maximum volume and return the candidate
with the highest net profit (ties keep the earlier candidate, matching the
strict `>` comparison of the source). -/
def OmniArbV2Calculator.optimize_trade_size (c : OmniArbV2Calculator)
    (price_a price_b : ℚ) (liquidity_depth : LiquidityDepth)
    (gas_cost_usd : ℚ) (flash_fee_rate : ℚ := 0) : ℚ × Zone6Result :=
  let max_volume := min (liquidity_depth.get_optimal_trade_size c.target_slippage)
    (liquidity_depth.tvl * c.max_tvl_pct)
  match sweep_fractions.foldl
      (c.sweepStep price_a price_b liquidity_depth gas_cost_usd flash_fee_rate max_volume)
      none with
  | some (best_volume, best_result) => (best_volume, best_result)
  | none =>
    (0, c._create_abort_result "No profitable trade size found" price_a price_b 0
      { gas_cost := gas_cost_usd })

/-! ## Universal Arbitrage Calculator -/

/-- `FlashLoanParams` dataclass with TVL-derived volume bounds. -/
structure FlashLoanParams where
  tvl : ℚ
  fee_rate : ℚ := 0.0009
  c_min : ℚ := 0.05
  c_max : ℚ := 0.20
  deriving DecidableEq, Repr

/-- `FlashLoanParams.v_min` property. -/
def FlashLoanParams.v_min (p : FlashLoanParams) : ℚ := p.c_min * p.tvl

/-- `FlashLoanParams.v_max` property. -/
def FlashLoanParams.v_max (p : FlashLoanParams) : ℚ := p.c_max * p.tvl

/-- `UniversalArbitrageResult` dataclass. -/
structure UniversalArbitrageResult where
  net_profit : ℚ
  gross_profit : ℚ
  loan_volume : ℚ
  effective_sell_price : ℚ
  effective_buy_price : ℚ
  slippage_sell : ℚ
  slippage_buy : ℚ
  flash_loan_cost : ℚ
  flash_fee_rate : ℚ
  profit_bps : ℚ
  is_profitable : Bool
  optimal_volume : ℚ
  max_loan_allowed : ℚ
  min_loan_required : ℚ
  price_spread_bps : ℚ
  market_volatility : ℚ := 0
  liquidity_depth_ratio : ℚ := 1
  execution_probability : ℚ := 1
  time_decay_factor : ℚ := 1
  gas_adjusted_profit : ℚ := 0
  deriving DecidableEq, Repr

/-- `UniversalArbitrageCalculator` constructor parameters; `max_slippage_pct`
is stored already divided by 100, as the constructor does. -/
structure UniversalArbitrageCalculator where
  min_profit_bps : ℚ := 30
  max_slippage_pct : ℚ := 0.5 / 100
  safety_margin : ℚ := 0.20
  gas_price_gwei : ℚ := 50
  block_time_ms : ℚ := 12000
  deriving DecidableEq, Repr

/-- The universal calculator with all constructor defaults. -/
def defaultUniversal : UniversalArbitrageCalculator := {}

/-- `UniversalArbitrageCalculator.calculate_profit`: the raw Universal
Arbitrage Equation, buying at the effective buy price and selling at the
effective sell price, minus the loan and its fee. -/
def UniversalArbitrageCalculator.calculate_profit (_c : UniversalArbitrageCalculator)
    (amount_borrowed price_sell slippage_sell price_buy slippage_buy
      flash_fee_rate : ℚ) : ℚ :=
  let eff_sell := price_sell * (1 - slippage_sell)
  let eff_buy := price_buy * (1 + slippage_buy)
  if eff_buy ≤ 0 then 0
  else
    let tokens_bought := amount_borrowed / eff_buy
    let usd_received := tokens_bought * eff_sell
    let loan_cost := amount_borrowed * flash_fee_rate
    usd_received - amount_borrowed - loan_cost

/-- `UniversalArbitrageCalculator.calculate_optimal_volume`: derivative-based
optimal flash-loan volume, clamped to the TVL bounds. -/
def UniversalArbitrageCalculator.calculate_optimal_volume
    (_c : UniversalArbitrageCalculator) (flash_params : FlashLoanParams)
    (price_sell price_buy : ℚ)
    (_base_slippage_sell _base_slippage_buy : ℚ)
    (slippage_impact_factor : ℚ := 0.00001) : ℚ :=
  let spread := price_sell - price_buy
  if spread ≤ 0 then 0
  else
    let total_slippage_factor := slippage_impact_factor * (price_sell + price_buy)
    let epsilon : ℚ := 1e-12
    if total_slippage_factor ≤ epsilon then flash_params.v_max
    else
      let v_optimal := (spread - flash_params.fee_rate) / (2 * total_slippage_factor)
      max flash_params.v_min (min flash_params.v_max v_optimal)

/-- `UniversalArbitrageCalculator.calculate_dynamic_slippage`: base slippage
plus quadratic volume impact plus half the volatility, capped at the
configured maximum. -/
def UniversalArbitrageCalculator.calculate_dynamic_slippage
    (c : UniversalArbitrageCalculator) (volume base_slippage liquidity : ℚ)
    (volatility : ℚ := 0) : ℚ :=
  let volume_impact := if 0 < liquidity then
      let volume_ratio := volume / liquidity
      volume_ratio * (1 + volume_ratio)
    else (0.1 : ℚ)
  let volatility_impact := volatility * 0.5
  let total_slippage := base_slippage + volume_impact + volatility_impact
  min total_slippage c.max_slippage_pct

/-- `UniversalArbitrageCalculator.calculate_arbitrage`: full pipeline from
optimal volume through dynamic slippage to the profitability verdict. The
source computes `price_spread_bps` by dividing by `price_buy` unguarded, so
the Python function raises `ZeroDivisionError` at `price_buy = 0`; the
embedding returns `none` there. -/
def UniversalArbitrageCalculator.calculate_arbitrage
    (c : UniversalArbitrageCalculator) (price_sell price_buy : ℚ)
    (flash_params : FlashLoanParams) (liquidity_sell liquidity_buy : ℚ)
    (base_slippage_sell : ℚ := 0.001) (base_slippage_buy : ℚ := 0.001)
    (volatility : ℚ := 0) (gas_cost_usd : ℚ := 0)
    (execution_probability : ℚ := 1) : Option UniversalArbitrageResult := do
  let optimal_volume := c.calculate_optimal_volume flash_params price_sell price_buy
    base_slippage_sell base_slippage_buy
  let slippage_sell := c.calculate_dynamic_slippage optimal_volume base_slippage_sell
    liquidity_sell volatility
  let slippage_buy := c.calculate_dynamic_slippage optimal_volume base_slippage_buy
    liquidity_buy volatility
  let effective_sell := price_sell * (1 - slippage_sell)
  let effective_buy := price_buy * (1 + slippage_buy)
  let net_profit := c.calculate_profit optimal_volume price_sell slippage_sell
    price_buy slippage_buy flash_params.fee_rate
  let gross_profit := if 0 < effective_buy then
      let tokens_bought := optimal_volume / effective_buy
      let usd_received := tokens_bought * effective_sell
      usd_received - optimal_volume
    else (0 : ℚ)
  let flash_loan_cost := optimal_volume * flash_params.fee_rate
  let gas_adjusted_profit := net_profit - gas_cost_usd
  let spread_over_buy ← qdiv? (price_sell - price_buy) price_buy
  let price_spread_bps := spread_over_buy * 10000
  let profit_bps := if 0 < optimal_volume then net_profit / optimal_volume * 10000 else 0
  let min_liquidity := min liquidity_sell liquidity_buy
  let liquidity_depth_ratio := if 0 < flash_params.tvl then min_liquidity / flash_params.tvl else 0
  let time_decay_factor := max 0.5 (1 - volatility * 0.5)
  let adjusted_profit := gas_adjusted_profit * (1 - c.safety_margin) *
    execution_probability * time_decay_factor
  return {
    net_profit := net_profit
    gross_profit := gross_profit
    loan_volume := optimal_volume
    effective_sell_price := effective_sell
    effective_buy_price := effective_buy
    slippage_sell := slippage_sell
    slippage_buy := slippage_buy
    flash_loan_cost := flash_loan_cost
    flash_fee_rate := flash_params.fee_rate
    profit_bps := profit_bps
    is_profitable := decide (0 < adjusted_profit) && decide (c.min_profit_bps ≤ profit_bps)
    optimal_volume := optimal_volume
    max_loan_allowed := flash_params.v_max
    min_loan_required := flash_params.v_min
    price_spread_bps := price_spread_bps
    market_volatility := volatility
    liquidity_depth_ratio := liquidity_depth_ratio
    execution_probability := execution_probability
    time_decay_factor := time_decay_factor
    gas_adjusted_profit := gas_adjusted_profit }

/-! ## Legacy multi-hop calculator -/

/-- `RouteType` enum. -/
inductive RouteType
  | two_hop
  | three_hop
  | four_hop
  deriving DecidableEq, Repr

/-- `Exchange` dataclass. -/
structure Exchange where
  name : String
  trading_fee : ℚ
  withdrawal_fee : ℚ
  gas_cost : ℚ
  liquidity_depth : ℚ
  slippage_factor : ℚ
  deriving DecidableEq, Repr

/-- `TradingPair` dataclass. -/
structure TradingPair where
  base : String
  quote : String
  exchange : Exchange
  bid_price : ℚ
  ask_price : ℚ
  spread : ℚ
  liquidity : ℚ
  deriving DecidableEq, Repr

/-- `ArbitrageRoute` dataclass. -/
structure ArbitrageRoute where
  route_type : RouteType
  pairs : List TradingPair
  path : List String
  expected_profit : ℚ
  expected_profit_bps : ℚ
  risk_score : ℚ
  execution_time_ms : ℚ
  total_fees : ℚ
  total_gas : ℚ
  slippage_estimate : ℚ
  min_capital_required : ℚ
  max_capital_recommended : ℚ
  deriving DecidableEq, Repr

/-- `MultiHopArbitrageCalculator` constructor parameters. -/
structure MultiHopArbitrageCalculator where
  min_profit_bps : ℚ := 30
  max_slippage_bps : ℚ := 50
  safety_margin : ℚ := 0.20
  deriving DecidableEq, Repr

/-- The legacy calculator with all constructor defaults. -/
def defaultMultiHop : MultiHopArbitrageCalculator := {}

/-- `MultiHopArbitrageCalculator._calculate_slippage`: linear in notional per
100k USD, scaled non-linearly above a size factor of 5, capped at 5%. -/
def MultiHopArbitrageCalculator._calculate_slippage
    (_c : MultiHopArbitrageCalculator) (trade_size : ℚ) (exchange : Exchange) : ℚ :=
  let size_factor := trade_size / 100000
  let base_slippage := exchange.slippage_factor * size_factor
  let base_slippage := if 5 < size_factor then
      base_slippage * (1 + (size_factor - 5) * 0.1)
    else base_slippage
  min base_slippage 0.05

/-- The per-leg slippage of `calculate_2hop_arbitrage` (source lines 149-150
and 158-159): uncapped linear slippage per 100k USD of notional. -/
def twoHopSlippage (pair : TradingPair) (notional : ℚ) : ℚ :=
  let trade_size_factor := notional / 100000
  pair.exchange.slippage_factor * trade_size_factor

/-- `MultiHopArbitrageCalculator._calculate_risk_score`: weighted sum of
profit shortfall, slippage, liquidity shortfall and hop-count complexity,
clamped to `[0, 100]`. The slippage term divides by the configured
`max_slippage_bps`, raising on a zero configuration. -/
def MultiHopArbitrageCalculator._calculate_risk_score
    (c : MultiHopArbitrageCalculator) (profit_bps slippage liquidity : ℚ)
    (execution_complexity : ℚ) : Option ℚ := do
  let profit_risk := max 0 (50 - profit_bps) / 50 * 30
  let slippage_over_max ← qdiv? slippage c.max_slippage_bps
  let slippage_risk := slippage_over_max * 10000 * 25
  let liquidity_risk := max 0 (1000000 - liquidity) / 1000000 * 25
  let complexity_risk := (execution_complexity - 2) * 10
  let total_risk := profit_risk + slippage_risk + liquidity_risk + complexity_risk
  return min 100 (max 0 total_risk)

/-- `MultiHopArbitrageCalculator._estimate_profit_probability`. -/
def MultiHopArbitrageCalculator._estimate_profit_probability
    (_c : MultiHopArbitrageCalculator) (profit_bps risk_score : ℚ) : ℚ :=
  let base_prob := min 0.95 (profit_bps / 200)
  let risk_adjustment := (100 - risk_score) / 100
  let final_prob := base_prob * risk_adjustment
  max 0.1 (min 0.95 final_prob)

/-- `MultiHopArbitrageCalculator._calculate_kelly_for_arb`: classical Kelly
fraction scaled by the fractional-Kelly factor 0.25 and clamped. -/
def MultiHopArbitrageCalculator._calculate_kelly_for_arb
    (_c : MultiHopArbitrageCalculator) (win_prob win_amount loss_amount : ℚ) : ℚ :=
  if loss_amount ≤ 0 then 0
  else
    let b := win_amount / loss_amount
    let p := win_prob
    let q := 1 - win_prob
    let kelly := if 0 < b then (p * b - q) / b else 0
    max 0 (min 0.25 (kelly * 0.25))

/-- `MultiHopArbitrageCalculator.calculate_2hop_arbitrage`. The outer `none`
models a raised `ZeroDivisionError` (zero ask price or zero capital); the
inner `none` is the "not profitable" return of the source. -/
def MultiHopArbitrageCalculator.calculate_2hop_arbitrage
    (c : MultiHopArbitrageCalculator) (pair1 pair2 : TradingPair)
    (capital : ℚ) : Option (Option ArbitrageRoute) := do
  let amount_after_fee1 := capital * (1 - pair1.exchange.trading_fee)
  let btc_bought ← qdiv? amount_after_fee1 pair1.ask_price
  let slippage1 := twoHopSlippage pair1 capital
  let btc_bought := btc_bought * (1 - slippage1)
  let usdt_received := btc_bought * pair2.bid_price
  let amount_after_fee2 := usdt_received * (1 - pair2.exchange.trading_fee)
  let slippage2 := twoHopSlippage pair2 usdt_received
  let amount_after_fee2 := amount_after_fee2 * (1 - slippage2)
  let total_gas := pair1.exchange.gas_cost + pair2.exchange.gas_cost
  let final_amount := amount_after_fee2 - total_gas
  let gross_profit := final_amount - capital
  let gross_over_capital ← qdiv? gross_profit capital
  let gross_profit_bps := gross_over_capital * 10000
  let total_fees := capital * pair1.exchange.trading_fee +
    usdt_received * pair2.exchange.trading_fee
  let total_slippage := slippage1 + slippage2
  let risk_score ← c._calculate_risk_score gross_profit_bps total_slippage
    (min pair1.liquidity pair2.liquidity) 2
  let net_profit_bps := gross_profit_bps * (1 - c.safety_margin)
  if net_profit_bps < c.min_profit_bps then
    return none
  let max_capital := min (pair1.liquidity * 0.1) (pair2.liquidity * 0.1)
  return some
    { route_type := RouteType.two_hop
      pairs := [pair1, pair2]
      path := [pair1.quote, pair1.base, pair2.quote]
      expected_profit := gross_profit * (1 - c.safety_margin)
      expected_profit_bps := net_profit_bps
      risk_score := risk_score
      execution_time_ms := 100
      total_fees := total_fees
      total_gas := total_gas
      slippage_estimate := total_slippage
      min_capital_required := 1000
      max_capital_recommended := max_capital }

/-- `MultiHopArbitrageCalculator.calculate_3hop_arbitrage`, with the same
`Option` layering as the 2-hop evaluator. -/
def MultiHopArbitrageCalculator.calculate_3hop_arbitrage
    (c : MultiHopArbitrageCalculator) (pair1 pair2 pair3 : TradingPair)
    (capital : ℚ) : Option (Option ArbitrageRoute) := do
  let amount1 := capital * (1 - pair1.exchange.trading_fee)
  let slippage1 := c._calculate_slippage capital pair1.exchange
  let amount1 := amount1 * (1 - slippage1)
  let btc_amount ← qdiv? amount1 pair1.ask_price
  let btc_value := btc_amount * pair2.ask_price
  let amount2 := btc_value * (1 - pair2.exchange.trading_fee)
  let slippage2 := c._calculate_slippage btc_value pair2.exchange
  let amount2 := amount2 * (1 - slippage2)
  let eth_amount ← qdiv? amount2 pair2.ask_price
  let eth_value := eth_amount * pair3.bid_price
  let amount3 := eth_value * (1 - pair3.exchange.trading_fee)
  let slippage3 := c._calculate_slippage eth_value pair3.exchange
  let amount3 := amount3 * (1 - slippage3)
  let total_gas := pair1.exchange.gas_cost + pair2.exchange.gas_cost +
    pair3.exchange.gas_cost
  let final_amount := amount3 - total_gas
  let gross_profit := final_amount - capital
  let gross_over_capital ← qdiv? gross_profit capital
  let gross_profit_bps := gross_over_capital * 10000
  let total_fees := capital * pair1.exchange.trading_fee +
    btc_value * pair2.exchange.trading_fee + eth_value * pair3.exchange.trading_fee
  let total_slippage := slippage1 + slippage2 + slippage3
  let risk_score ← c._calculate_risk_score gross_profit_bps total_slippage
    (min pair1.liquidity (min pair2.liquidity pair3.liquidity)) 3
  let net_profit_bps := gross_profit_bps * (1 - c.safety_margin)
  if net_profit_bps < c.min_profit_bps then
    return none
  let max_capital := min (pair1.liquidity * 0.1)
    (min (pair2.liquidity * 0.1) (pair3.liquidity * 0.1))
  return some
    { route_type := RouteType.three_hop
      pairs := [pair1, pair2, pair3]
      path := [pair1.quote, pair1.base, pair2.base, pair3.quote]
      expected_profit := gross_profit * (1 - c.safety_margin)
      expected_profit_bps := net_profit_bps
      risk_score := risk_score
      execution_time_ms := 150
      total_fees := total_fees
      total_gas := total_gas
      slippage_estimate := total_slippage
      min_capital_required := 2000
      max_capital_recommended := max_capital }

/-- One hop of the 4-hop loop: fee, slippage, conversion (buy on even hops,
sell on odd hops), gas. State is (current amount, fees, slippage, gas). -/
def MultiHopArbitrageCalculator.fourHopStep (c : MultiHopArbitrageCalculator)
    (st : ℚ × ℚ × ℚ × ℚ) (ip : ℕ × TradingPair) : Option (ℚ × ℚ × ℚ × ℚ) :=
  let (current_amount, total_fees, total_slippage, total_gas) := st
  let (i, pair) := ip
  let fee := current_amount * pair.exchange.trading_fee
  let total_fees := total_fees + fee
  let current_amount := current_amount - fee
  let slippage := c._calculate_slippage current_amount pair.exchange
  let total_slippage := total_slippage + slippage
  let current_amount := current_amount * (1 - slippage)
  let converted : Option ℚ :=
    if i % 2 = 0 then qdiv? current_amount pair.ask_price
    else some (current_amount * pair.bid_price)
  converted.map fun cur =>
    (cur, total_fees, total_slippage, total_gas + pair.exchange.gas_cost)

/-- `MultiHopArbitrageCalculator.calculate_4hop_arbitrage`, with the same
`Option` layering as the 2-hop evaluator. -/
def MultiHopArbitrageCalculator.calculate_4hop_arbitrage
    (c : MultiHopArbitrageCalculator) (pair1 pair2 pair3 pair4 : TradingPair)
    (capital : ℚ) : Option (Option ArbitrageRoute) := do
  let pairs := [pair1, pair2, pair3, pair4]
  let (current_amount, total_fees, total_slippage, total_gas) ←
    pairs.enum.foldlM (c.fourHopStep) (capital, 0, 0, 0)
  let final_amount := current_amount - total_gas
  let gross_profit := final_amount - capital
  let gross_over_capital ← qdiv? gross_profit capital
  let gross_profit_bps := gross_over_capital * 10000
  let min_liquidity := min pair1.liquidity
    (min pair2.liquidity (min pair3.liquidity pair4.liquidity))
  let risk_score ← c._calculate_risk_score gross_profit_bps total_slippage
    min_liquidity 4
  let net_profit_bps := gross_profit_bps * (1 - c.safety_margin)
  if net_profit_bps < c.min_profit_bps then
    return none
  let max_capital := min (pair1.liquidity * 0.05)
    (min (pair2.liquidity * 0.05) (min (pair3.liquidity * 0.05) (pair4.liquidity * 0.05)))
  return some
    { route_type := RouteType.four_hop
      pairs := pairs
      path := [pair1.quote, pair1.base, pair2.base, pair3.base, pair4.quote]
      expected_profit := gross_profit * (1 - c.safety_margin)
      expected_profit_bps := net_profit_bps
      risk_score := risk_score
      execution_time_ms := 200
      total_fees := total_fees
      total_gas := total_gas
      slippage_estimate := total_slippage
      min_capital_required := 5000
      max_capital_recommended := max_capital }

/-! ## Helper lemmas: Zone-6 valid-path projections -/

theorem zone6_invalid_eq (c : OmniArbV2Calculator) (pa pb v : ℚ)
    (ld : LiquidityDepth) (cost : TotalCostOfExecution)
    (h : pa ≤ 0 ∨ pb ≤ 0 ∨ v ≤ 0) :
    c.calculate_zone6_profit pa pb v ld cost =
      c._create_abort_result "Invalid input: prices and volume must be positive"
        pa pb v cost := by
  simp only [OmniArbV2Calculator.calculate_zone6_profit, if_pos h]

theorem zone6_gross_eq (c : OmniArbV2Calculator) (pa pb v : ℚ)
    (ld : LiquidityDepth) (cost : TotalCostOfExecution)
    (h1 : 0 < pa) (h2 : 0 < pb) (h3 : 0 < v) :
    (c.calculate_zone6_profit pa pb v ld cost).gross_profit =
      v / pb * pa * (1 - ld.calculate_dynamic_slippage v) - v := by
  have hcond : ¬(pa ≤ 0 ∨ pb ≤ 0 ∨ v ≤ 0) := by push_neg; exact ⟨h1, h2, h3⟩
  simp only [OmniArbV2Calculator.calculate_zone6_profit, if_neg hcond, if_pos h2]

theorem zone6_cost_eq (c : OmniArbV2Calculator) (pa pb v : ℚ)
    (ld : LiquidityDepth) (cost : TotalCostOfExecution)
    (h1 : 0 < pa) (h2 : 0 < pb) (h3 : 0 < v) :
    (c.calculate_zone6_profit pa pb v ld cost).cost_of_execution = cost := by
  have hcond : ¬(pa ≤ 0 ∨ pb ≤ 0 ∨ v ≤ 0) := by push_neg; exact ⟨h1, h2, h3⟩
  simp only [OmniArbV2Calculator.calculate_zone6_profit, if_neg hcond]

theorem zone6_volume_eq (c : OmniArbV2Calculator) (pa pb v : ℚ)
    (ld : LiquidityDepth) (cost : TotalCostOfExecution)
    (h1 : 0 < pa) (h2 : 0 < pb) (h3 : 0 < v) :
    (c.calculate_zone6_profit pa pb v ld cost).volume = v := by
  have hcond : ¬(pa ≤ 0 ∨ pb ≤ 0 ∨ v ≤ 0) := by push_neg; exact ⟨h1, h2, h3⟩
  simp only [OmniArbV2Calculator.calculate_zone6_profit, if_neg hcond]

theorem zone6_net_eq (c : OmniArbV2Calculator) (pa pb v : ℚ)
    (ld : LiquidityDepth) (cost : TotalCostOfExecution)
    (h1 : 0 < pa) (h2 : 0 < pb) (h3 : 0 < v) :
    (c.calculate_zone6_profit pa pb v ld cost).net_profit =
      (v / pb * pa * (1 - ld.calculate_dynamic_slippage v) - v) - cost.total := by
  have hcond : ¬(pa ≤ 0 ∨ pb ≤ 0 ∨ v ≤ 0) := by push_neg; exact ⟨h1, h2, h3⟩
  simp only [OmniArbV2Calculator.calculate_zone6_profit, if_neg hcond, if_pos h2]

theorem zone6_bps_eq (c : OmniArbV2Calculator) (pa pb v : ℚ)
    (ld : LiquidityDepth) (cost : TotalCostOfExecution)
    (h1 : 0 < pa) (h2 : 0 < pb) (h3 : 0 < v) :
    (c.calculate_zone6_profit pa pb v ld cost).profit_bps =
      ((v / pb * pa * (1 - ld.calculate_dynamic_slippage v) - v) - cost.total)
        / v * 10000 := by
  have hcond : ¬(pa ≤ 0 ∨ pb ≤ 0 ∨ v ≤ 0) := by push_neg; exact ⟨h1, h2, h3⟩
  simp only [OmniArbV2Calculator.calculate_zone6_profit, if_neg hcond, if_pos h2,
    if_pos h3]

theorem zone6_gas_eq (c : OmniArbV2Calculator) (pa pb v : ℚ)
    (ld : LiquidityDepth) (cost : TotalCostOfExecution)
    (h1 : 0 < pa) (h2 : 0 < pb) (h3 : 0 < v) :
    (c.calculate_zone6_profit pa pb v ld cost).passed_gas_check =
      decide (cost.gas_cost * c.gas_safety_multiplier ≤
        v / pb * pa * (1 - ld.calculate_dynamic_slippage v) - v) := by
  have hcond : ¬(pa ≤ 0 ∨ pb ≤ 0 ∨ v ≤ 0) := by push_neg; exact ⟨h1, h2, h3⟩
  simp only [OmniArbV2Calculator.calculate_zone6_profit, if_neg hcond, if_pos h2]

theorem zone6_profitable_eq (c : OmniArbV2Calculator) (pa pb v : ℚ)
    (ld : LiquidityDepth) (cost : TotalCostOfExecution)
    (h1 : 0 < pa) (h2 : 0 < pb) (h3 : 0 < v) :
    (c.calculate_zone6_profit pa pb v ld cost).is_profitable =
      (decide (0 < (c.calculate_zone6_profit pa pb v ld cost).net_profit) &&
       (c.calculate_zone6_profit pa pb v ld cost).passed_gas_check &&
       (c.calculate_zone6_profit pa pb v ld cost).passed_slippage_guard &&
       decide (c.min_profit_bps ≤ (c.calculate_zone6_profit pa pb v ld cost).profit_bps)) := by
  have hcond : ¬(pa ≤ 0 ∨ pb ≤ 0 ∨ v ≤ 0) := by push_neg; exact ⟨h1, h2, h3⟩
  simp only [OmniArbV2Calculator.calculate_zone6_profit, if_neg hcond]

/-! ## Claims -/

/-- C9: for every pool with positive TVL, the constant-product dynamic
slippage equals `trade_size / (tvl + trade_size)`; it is `0` at trade size
`0`, and it is strictly increasing in the trade size. -/
theorem C9_dynamic_slippage (ld : LiquidityDepth) (htvl : 0 < ld.tvl) :
    (∀ ts : ℚ, 0 ≤ ts →
      ld.calculate_dynamic_slippage ts = ts / (ld.tvl + ts)) ∧
    ld.calculate_dynamic_slippage 0 = 0 ∧
    (∀ v1 v2 : ℚ, 0 ≤ v1 → v1 < v2 →
      ld.calculate_dynamic_slippage v1 < ld.calculate_dynamic_slippage v2) := by
  have hne : ¬ ld.tvl ≤ 0 := not_le.mpr htvl
  have hformula : ∀ ts : ℚ, ld.calculate_dynamic_slippage ts = ts / (ld.tvl + ts) := by
    intro ts
    simp only [LiquidityDepth.calculate_dynamic_slippage, if_neg hne]
  refine ⟨fun ts _ => hformula ts, ?_, ?_⟩
  · rw [hformula]; simp
  · intro v1 v2 hv1 hlt
    rw [hformula, hformula]
    have hd1 : 0 < ld.tvl + v1 := by linarith
    have hd2 : 0 < ld.tvl + v2 := by linarith
    rw [div_lt_div_iff₀ hd1 hd2]
    nlinarith

/-- C9 witness: a concrete pool with TVL 100. -/
theorem C9_witness :
    (0 : ℚ) < (⟨100, 50, 50⟩ : LiquidityDepth).tvl ∧
    ((∀ ts : ℚ, 0 ≤ ts →
        (⟨100, 50, 50⟩ : LiquidityDepth).calculate_dynamic_slippage ts =
          ts / ((⟨100, 50, 50⟩ : LiquidityDepth).tvl + ts)) ∧
      (⟨100, 50, 50⟩ : LiquidityDepth).calculate_dynamic_slippage 0 = 0 ∧
      (∀ v1 v2 : ℚ, 0 ≤ v1 → v1 < v2 →
        (⟨100, 50, 50⟩ : LiquidityDepth).calculate_dynamic_slippage v1 <
          (⟨100, 50, 50⟩ : LiquidityDepth).calculate_dynamic_slippage v2)) :=
  ⟨by norm_num, C9_dynamic_slippage ⟨100, 50, 50⟩ (by norm_num)⟩

/-- C1 counterexample: at `price_a = 2`, `price_b = 1`, `volume = 100` over a
pool of TVL 100 (so `S = 1/2`), the Zone-6 gross profit is `0`, while the
tokens-bought/sold form with slippage on both legs gives `-100/3`. -/
theorem C1_counterexample :
    (defaultV2.calculate_zone6_profit 2 1 100 ⟨100, 50, 50⟩ ⟨0, 0, 0, 0⟩).gross_profit ≠
      100 / (1 * (1 + (⟨100, 50, 50⟩ : LiquidityDepth).calculate_dynamic_slippage 100)) *
        (2 * (1 - (⟨100, 50, 50⟩ : LiquidityDepth).calculate_dynamic_slippage 100)) - 100 := by
  rw [zone6_gross_eq defaultV2 2 1 100 ⟨100, 50, 50⟩ ⟨0, 0, 0, 0⟩
    (by norm_num) (by norm_num) (by norm_num)]
  norm_num [LiquidityDepth.calculate_dynamic_slippage]

/-- C1 (amended): for valid inputs the Zone-6 gross profit applies slippage
only on the sell leg: `gross = (volume / price_b) * price_a * (1 - S) - volume`,
with no `(1 + S)` denominator on the buy leg. -/
theorem C1_gross_profit (c : OmniArbV2Calculator) (pa pb v : ℚ)
    (ld : LiquidityDepth) (cost : TotalCostOfExecution)
    (h1 : 0 < pa) (h2 : 0 < pb) (h3 : 0 < v) :
    (c.calculate_zone6_profit pa pb v ld cost).gross_profit =
      v / pb * pa * (1 - ld.calculate_dynamic_slippage v) - v :=
  zone6_gross_eq c pa pb v ld cost h1 h2 h3

/-- C1 witness: the amended gross-profit form at a concrete valid input. -/
theorem C1_witness :
    ((0 : ℚ) < 2 ∧ (0 : ℚ) < 1 ∧ (0 : ℚ) < 100) ∧
    (defaultV2.calculate_zone6_profit 2 1 100 ⟨100, 50, 50⟩ ⟨0, 0, 0, 0⟩).gross_profit =
      100 / 1 * 2 * (1 - (⟨100, 50, 50⟩ : LiquidityDepth).calculate_dynamic_slippage 100)
        - 100 :=
  ⟨⟨by norm_num, by norm_num, by norm_num⟩,
    C1_gross_profit defaultV2 2 1 100 ⟨100, 50, 50⟩ ⟨0, 0, 0, 0⟩
      (by norm_num) (by norm_num) (by norm_num)⟩

/-- C6: with the default gas safety multiplier 1.5, the Zone-6 gas check
passes exactly when `gross_profit >= gas_cost * 1.5`; a failed gas check
forces `is_profitable = false`; a gross profit of `1.49x` gas fails, `1.51x`
passes, and the boundary `1.5x` itself passes. -/
theorem C6_gas_check (pa pb v : ℚ) (ld : LiquidityDepth)
    (cost : TotalCostOfExecution) (h1 : 0 < pa) (h2 : 0 < pb) (h3 : 0 < v) :
    ((defaultV2.calculate_zone6_profit pa pb v ld cost).passed_gas_check = true ↔
      cost.gas_cost * 1.5 ≤
        (defaultV2.calculate_zone6_profit pa pb v ld cost).gross_profit) ∧
    ((defaultV2.calculate_zone6_profit pa pb v ld cost).passed_gas_check = false →
      (defaultV2.calculate_zone6_profit pa pb v ld cost).is_profitable = false) ∧
    (0 < cost.gas_cost →
      (defaultV2.calculate_zone6_profit pa pb v ld cost).gross_profit =
        1.49 * cost.gas_cost →
      (defaultV2.calculate_zone6_profit pa pb v ld cost).passed_gas_check = false) ∧
    (0 < cost.gas_cost →
      (defaultV2.calculate_zone6_profit pa pb v ld cost).gross_profit =
        1.51 * cost.gas_cost →
      (defaultV2.calculate_zone6_profit pa pb v ld cost).passed_gas_check = true) ∧
    ((defaultV2.calculate_zone6_profit pa pb v ld cost).gross_profit =
        1.5 * cost.gas_cost →
      (defaultV2.calculate_zone6_profit pa pb v ld cost).passed_gas_check = true) := by
  have hgas := zone6_gas_eq defaultV2 pa pb v ld cost h1 h2 h3
  have hgross := zone6_gross_eq defaultV2 pa pb v ld cost h1 h2 h3
  have hprof := zone6_profitable_eq defaultV2 pa pb v ld cost h1 h2 h3
  refine ⟨?_, ?_, ?_, ?_, ?_⟩
  · rw [hgas, hgross]
    simp [defaultV2, decide_eq_true_eq]
  · intro hfail
    rw [hprof, hfail]
    simp
  · intro hg heq
    rw [hgas, hgross.symm.trans heq]
    simp only [decide_eq_false_iff_not, not_le, defaultV2]
    nlinarith
  · intro hg heq
    rw [hgas, hgross.symm.trans heq]
    simp only [decide_eq_true_eq, defaultV2]
    nlinarith
  · intro heq
    rw [hgas, hgross.symm.trans heq]
    simp only [decide_eq_true_eq, defaultV2]
    nlinarith [cost.gas_cost]

/-- C6 witness: concrete valid inputs for the gas-check characterisation. -/
theorem C6_witness :
    ((0 : ℚ) < 2 ∧ (0 : ℚ) < 1 ∧ (0 : ℚ) < 100) ∧
    ((defaultV2.calculate_zone6_profit 2 1 100 ⟨100, 50, 50⟩
        ⟨5, 0, 0, 0⟩).passed_gas_check = true ↔
      (5 : ℚ) * 1.5 ≤
        (defaultV2.calculate_zone6_profit 2 1 100 ⟨100, 50, 50⟩
          ⟨5, 0, 0, 0⟩).gross_profit) :=
  ⟨⟨by norm_num, by norm_num, by norm_num⟩,
    (C6_gas_check 2 1 100 ⟨100, 50, 50⟩ ⟨5, 0, 0, 0⟩
      (by norm_num) (by norm_num) (by norm_num)).1⟩

/-- C7 counterexample: an abort result (invalid input: negative price) zeroes
`net_profit` and `gross_profit` but carries a nonzero cost breakdown, so
`net_profit = gross_profit - total_execution_cost` fails on it. -/
theorem C7_counterexample :
    (defaultV2.calculate_zone6_profit (-1) 1 100 ⟨100, 50, 50⟩
        ⟨5, 0, 0, 0⟩).net_profit ≠
      (defaultV2.calculate_zone6_profit (-1) 1 100 ⟨100, 50, 50⟩
        ⟨5, 0, 0, 0⟩).gross_profit -
      (defaultV2.calculate_zone6_profit (-1) 1 100 ⟨100, 50, 50⟩
        ⟨5, 0, 0, 0⟩).cost_of_execution.total := by
  rw [zone6_invalid_eq defaultV2 (-1) 1 100 ⟨100, 50, 50⟩ ⟨5, 0, 0, 0⟩
    (Or.inl (by norm_num))]
  norm_num [OmniArbV2Calculator._create_abort_result, TotalCostOfExecution.total]

/-- C7 (amended): for valid inputs, every Zone-6 result satisfies
`net_profit = gross_profit - total_execution_cost` and
`profit_bps = net_profit / volume * 10000`; abort results zero out gross,
net and bps regardless of the attached cost breakdown; the Universal
calculator, away from its `price_buy = 0` error path, returns a result with
`profit_bps = net_profit / loan_volume * 10000` when the loan volume is
positive and `0` otherwise. -/
theorem C7_result_invariants (c : OmniArbV2Calculator) (pa pb v : ℚ)
    (ld : LiquidityDepth) (cost : TotalCostOfExecution)
    (u : UniversalArbitrageCalculator) (ps pbuy : ℚ) (fp : FlashLoanParams)
    (ls lb bss bsb vol gas ep : ℚ) :
    (0 < pa → 0 < pb → 0 < v →
      (c.calculate_zone6_profit pa pb v ld cost).net_profit =
        (c.calculate_zone6_profit pa pb v ld cost).gross_profit -
        (c.calculate_zone6_profit pa pb v ld cost).cost_of_execution.total ∧
      (c.calculate_zone6_profit pa pb v ld cost).profit_bps =
        (c.calculate_zone6_profit pa pb v ld cost).net_profit /
        (c.calculate_zone6_profit pa pb v ld cost).volume * 10000) ∧
    (pa ≤ 0 ∨ pb ≤ 0 ∨ v ≤ 0 →
      (c.calculate_zone6_profit pa pb v ld cost).gross_profit = 0 ∧
      (c.calculate_zone6_profit pa pb v ld cost).net_profit = 0 ∧
      (c.calculate_zone6_profit pa pb v ld cost).profit_bps = 0) ∧
    (pbuy ≠ 0 →
      ∃ r, u.calculate_arbitrage ps pbuy fp ls lb bss bsb vol gas ep = some r ∧
        r.profit_bps =
          if 0 < r.loan_volume then r.net_profit / r.loan_volume * 10000
          else 0) := by
  refine ⟨?_, ?_, ?_⟩
  · intro h1 h2 h3
    constructor
    · rw [zone6_net_eq c pa pb v ld cost h1 h2 h3,
        zone6_gross_eq c pa pb v ld cost h1 h2 h3,
        zone6_cost_eq c pa pb v ld cost h1 h2 h3]
    · rw [zone6_bps_eq c pa pb v ld cost h1 h2 h3,
        zone6_net_eq c pa pb v ld cost h1 h2 h3,
        zone6_volume_eq c pa pb v ld cost h1 h2 h3]
  · intro h
    rw [zone6_invalid_eq c pa pb v ld cost h]
    refine ⟨rfl, rfl, rfl⟩
  · intro h
    simp only [UniversalArbitrageCalculator.calculate_arbitrage, qdiv?,
      if_neg h, bind, Option.bind]
    exact ⟨_, rfl, rfl⟩

/-- C7 witness: the valid-path invariant at a concrete input. -/
theorem C7_witness :
    ((0 : ℚ) < 2 ∧ (0 : ℚ) < 1 ∧ (0 : ℚ) < 100) ∧
    (defaultV2.calculate_zone6_profit 2 1 100 ⟨100, 50, 50⟩ ⟨5, 0, 0, 0⟩).net_profit =
      (defaultV2.calculate_zone6_profit 2 1 100 ⟨100, 50, 50⟩ ⟨5, 0, 0, 0⟩).gross_profit -
      (defaultV2.calculate_zone6_profit 2 1 100 ⟨100, 50, 50⟩
        ⟨5, 0, 0, 0⟩).cost_of_execution.total :=
  ⟨⟨by norm_num, by norm_num, by norm_num⟩,
    ((C7_result_invariants defaultV2 2 1 100 ⟨100, 50, 50⟩ ⟨5, 0, 0, 0⟩
        defaultUniversal 2 1 ⟨100000, 0.0009, 0.05, 0.20⟩ 1000 1000 0.001 0.001 0 0 1).1
      (by norm_num) (by norm_num) (by norm_num)).1⟩

/-- C5: the optimal flash-loan volume is `0` for a non-positive spread; with
`k = slippage_impact_factor * (price_sell + price_buy)` at most the numeric
epsilon `1e-12` it falls back to `v_max = c_max * tvl`; otherwise it is
`(spread - fee_rate) / (2k)` clamped to `[v_min, v_max]`, and the divisor
`2k` is strictly positive, so no division by a non-positive spread or a zero
slippage coefficient occurs. -/
theorem C5_optimal_volume (u : UniversalArbitrageCalculator)
    (fp : FlashLoanParams) (ps pb bss bsb sif : ℚ) :
    (ps - pb ≤ 0 → u.calculate_optimal_volume fp ps pb bss bsb sif = 0) ∧
    (0 < ps - pb → sif * (ps + pb) ≤ 1e-12 →
      u.calculate_optimal_volume fp ps pb bss bsb sif = fp.c_max * fp.tvl) ∧
    (0 < ps - pb → 1e-12 < sif * (ps + pb) →
      u.calculate_optimal_volume fp ps pb bss bsb sif =
        max (fp.c_min * fp.tvl) (min (fp.c_max * fp.tvl)
          ((ps - pb - fp.fee_rate) / (2 * (sif * (ps + pb))))) ∧
      0 < 2 * (sif * (ps + pb))) := by
  refine ⟨?_, ?_, ?_⟩
  · intro h
    simp only [UniversalArbitrageCalculator.calculate_optimal_volume, if_pos h]
  · intro hspread hk
    have hns : ¬ ps - pb ≤ 0 := not_le.mpr hspread
    simp only [UniversalArbitrageCalculator.calculate_optimal_volume, if_neg hns,
      if_pos hk, FlashLoanParams.v_max]
  · intro hspread hk
    have hns : ¬ ps - pb ≤ 0 := not_le.mpr hspread
    have hnk : ¬ sif * (ps + pb) ≤ (1e-12 : ℚ) := not_le.mpr hk
    constructor
    · simp only [UniversalArbitrageCalculator.calculate_optimal_volume, if_neg hns,
        if_neg hnk, FlashLoanParams.v_max, FlashLoanParams.v_min]
    · have : (0 : ℚ) < 1e-12 := by norm_num
      linarith

/-- C5 witness: a concrete positive-spread, positive-coefficient instance. -/
theorem C5_witness :
    ((0 : ℚ) < 2 - 1) ∧ ((1e-12 : ℚ) < 0.00001 * (2 + 1)) ∧
    defaultUniversal.calculate_optimal_volume
        ⟨100000, 0.0009, 0.05, 0.20⟩ 2 1 0.001 0.001 0.00001 =
      max ((⟨100000, 0.0009, 0.05, 0.20⟩ : FlashLoanParams).c_min *
          (⟨100000, 0.0009, 0.05, 0.20⟩ : FlashLoanParams).tvl)
        (min ((⟨100000, 0.0009, 0.05, 0.20⟩ : FlashLoanParams).c_max *
          (⟨100000, 0.0009, 0.05, 0.20⟩ : FlashLoanParams).tvl)
          ((2 - 1 - (⟨100000, 0.0009, 0.05, 0.20⟩ : FlashLoanParams).fee_rate) /
            (2 * (0.00001 * (2 + 1))))) :=
  ⟨by norm_num, by norm_num,
    ((C5_optimal_volume defaultUniversal ⟨100000, 0.0009, 0.05, 0.20⟩ 2 1
        0.001 0.001 0.00001).2.2 (by norm_num) (by norm_num)).1⟩

/-- C2 counterexample: with a 20000 USD gas cost the call below yields
`net_profit > 0` and `profit_bps >= min_profit_bps`, yet `is_profitable` is
false, because the verdict is taken on the gas-and-safety-adjusted profit
rather than on `net_profit`. -/
theorem C2_counterexample :
    (defaultUniversal.calculate_arbitrage 2 1 ⟨100000, 0.0009, 0.05, 0.20⟩
        1000 1000 0.001 0.001 0 20000 1).map (fun r =>
      (r.is_profitable, decide (0 < r.net_profit),
        decide (defaultUniversal.min_profit_bps ≤ r.profit_bps))) =
      some (false, true, true) := by
  norm_num [UniversalArbitrageCalculator.calculate_arbitrage,
    UniversalArbitrageCalculator.calculate_optimal_volume,
    UniversalArbitrageCalculator.calculate_dynamic_slippage,
    UniversalArbitrageCalculator.calculate_profit,
    FlashLoanParams.v_min, FlashLoanParams.v_max, defaultUniversal,
    qdiv?, bind, Option.bind, Option.map]

/-- C2 (amended): away from the `price_buy = 0` error path, the Universal
calculator returns a result whose `is_profitable` holds exactly when the
adjusted profit — `gas_adjusted_profit` scaled by the safety margin, the
execution probability and the time-decay factor — is positive and
`profit_bps` meets `min_profit_bps`; the unadjusted `net_profit` is not the
quantity tested. -/
theorem C2_is_profitable (u : UniversalArbitrageCalculator) (ps pbuy : ℚ)
    (fp : FlashLoanParams) (ls lb bss bsb vol gas ep : ℚ) (h : pbuy ≠ 0) :
    ∃ r, u.calculate_arbitrage ps pbuy fp ls lb bss bsb vol gas ep = some r ∧
      r.is_profitable =
        (decide (0 < r.gas_adjusted_profit * (1 - u.safety_margin) * ep *
          r.time_decay_factor) &&
         decide (u.min_profit_bps ≤ r.profit_bps)) := by
  simp only [UniversalArbitrageCalculator.calculate_arbitrage, qdiv?,
    if_neg h, bind, Option.bind]
  exact ⟨_, rfl, rfl⟩

/-- C2 witness: the profitability characterisation at a concrete call with a
nonzero buy price. -/
theorem C2_witness :
    (1 : ℚ) ≠ 0 ∧
    ∃ r, defaultUniversal.calculate_arbitrage 2 1 ⟨100000, 0.0009, 0.05, 0.20⟩
        1000 1000 0.001 0.001 0 0 1 = some r ∧
      r.is_profitable =
        (decide (0 < r.gas_adjusted_profit * (1 - defaultUniversal.safety_margin) *
          1 * r.time_decay_factor) &&
         decide (defaultUniversal.min_profit_bps ≤ r.profit_bps)) :=
  ⟨by norm_num,
    C2_is_profitable defaultUniversal 2 1 ⟨100000, 0.0009, 0.05, 0.20⟩
      1000 1000 0.001 0.001 0 0 1 (by norm_num)⟩

/-- C8: the Kelly fraction returned by `_calculate_kelly_for_arb` is `0` for
a non-positive loss amount, always lies in `[0, 0.25]` for a positive loss
amount, and for positive win and loss amounts equals the classical fraction
`(p*b - q)/b` with `b = win/loss`, scaled by `0.25` and clamped to
`[0, 0.25]`. -/
theorem C8_kelly (c : MultiHopArbitrageCalculator) (p win loss : ℚ) :
    (loss ≤ 0 → c._calculate_kelly_for_arb p win loss = 0) ∧
    (0 < loss → 0 ≤ c._calculate_kelly_for_arb p win loss ∧
      c._calculate_kelly_for_arb p win loss ≤ 0.25) ∧
    (0 < loss → 0 < win →
      c._calculate_kelly_for_arb p win loss =
        max 0 (min 0.25 ((p * (win / loss) - (1 - p)) / (win / loss) * 0.25))) := by
  refine ⟨?_, ?_, ?_⟩
  · intro h
    simp only [MultiHopArbitrageCalculator._calculate_kelly_for_arb, if_pos h]
  · intro h
    have hn : ¬ loss ≤ 0 := not_le.mpr h
    simp only [MultiHopArbitrageCalculator._calculate_kelly_for_arb, if_neg hn]
    constructor
    · exact le_max_left 0 _
    · exact max_le (by norm_num) (min_le_left _ _)
  · intro hloss hwin
    have hn : ¬ loss ≤ 0 := not_le.mpr hloss
    have hb : 0 < win / loss := div_pos hwin hloss
    simp only [MultiHopArbitrageCalculator._calculate_kelly_for_arb, if_neg hn,
      if_pos hb]

/-- C8 witness: win probability 1/2, win 2, loss 1 gives the clamped
quarter-Kelly value. -/
theorem C8_witness :
    ((0 : ℚ) < 1 ∧ (0 : ℚ) < 2) ∧
    defaultMultiHop._calculate_kelly_for_arb (1/2) 2 1 =
      max 0 (min 0.25 (((1:ℚ)/2 * (2 / 1) - (1 - 1/2)) / (2 / 1) * 0.25)) :=
  ⟨⟨by norm_num, by norm_num⟩,
    (C8_kelly defaultMultiHop (1/2) 2 1).2.2 (by norm_num) (by norm_num)⟩

/-- C3 counterexample: in the 2-hop evaluator, the slippage applied on a leg
with slippage factor `0.01` and notional `1000000` is the uncapped linear
value `0.1`, not the capped-and-scaled `min` formula (which gives `0.05`);
in particular it exceeds the claimed `0.05` bound. -/
theorem C3_counterexample :
    twoHopSlippage
        ⟨"BTC", "USDT", ⟨"X", 0.001, 0, 1, 1000000, 0.01⟩, 1, 1, 0, 1000000⟩
        1000000 ≠
      min ((0.01 : ℚ) * ((1000000 : ℚ) / 100000) *
        (if 5 < (1000000 : ℚ) / 100000 then 1 + ((1000000 : ℚ) / 100000 - 5) * 0.1
         else 1)) 0.05 ∧
    (0.05 : ℚ) < twoHopSlippage
        ⟨"BTC", "USDT", ⟨"X", 0.001, 0, 1, 1000000, 0.01⟩, 1, 1, 0, 1000000⟩
        1000000 := by
  norm_num [twoHopSlippage, min_def]

/-- C3 (amended): the per-hop slippage of the 3-hop and 4-hop evaluators,
`_calculate_slippage`, equals `min(slippage_factor * (notional/100000), 0.05)`
with the factor scaled by `1 + (notional/100k - 5) * 0.1` above a size factor
of 5, and never exceeds `0.05`; the 2-hop evaluator instead applies the
uncapped, unscaled linear slippage `slippage_factor * (notional/100000)` on
each leg. -/
theorem C3_hop_slippage (c : MultiHopArbitrageCalculator) (ts : ℚ)
    (ex : Exchange) (pair : TradingPair) (notional : ℚ) :
    c._calculate_slippage ts ex =
      min (ex.slippage_factor * (ts / 100000) *
        (if 5 < ts / 100000 then 1 + (ts / 100000 - 5) * 0.1 else 1)) 0.05 ∧
    c._calculate_slippage ts ex ≤ 0.05 ∧
    twoHopSlippage pair notional =
      pair.exchange.slippage_factor * (notional / 100000) := by
  refine ⟨?_, ?_, rfl⟩
  · simp only [MultiHopArbitrageCalculator._calculate_slippage]
    split_ifs with h
    · rfl
    · rw [mul_one]
  · simp only [MultiHopArbitrageCalculator._calculate_slippage]
    split_ifs <;> exact min_le_right _ _

/-- C4 counterexample: at zero capital the 2-hop evaluator divides the gross
profit by the capital and raises `ZeroDivisionError` (modelled as `none`), so
it is not total over non-positive inputs and returns no abort reason there. -/
theorem C4_counterexample :
    defaultMultiHop.calculate_2hop_arbitrage
        ⟨"BTC", "USDT", ⟨"X", 0.001, 0, 1, 1000000, 0.001⟩, 1, 1, 0, 1000000⟩
        ⟨"BTC", "USDT", ⟨"Y", 0.001, 0, 1, 1000000, 0.001⟩, 1, 1, 0, 1000000⟩
        0 = none := by
  simp only [MultiHopArbitrageCalculator.calculate_2hop_arbitrage, qdiv?,
    twoHopSlippage, bind, Option.bind]
  norm_num

/-- C4 (amended): the Zone-6 calculator rejects any non-positive price or
volume with an abort result carrying the human-readable reason string and
`is_profitable = false`; the 2-hop evaluator is total only away from zero
capital, zero ask price and a zero slippage configuration, where it returns
a value (an optional route) rather than raising. -/
theorem C4_input_validation (c : OmniArbV2Calculator) (pa pb v : ℚ)
    (ld : LiquidityDepth) (cost : TotalCostOfExecution)
    (m : MultiHopArbitrageCalculator) (p1 p2 : TradingPair) (capital : ℚ) :
    (pa ≤ 0 ∨ pb ≤ 0 ∨ v ≤ 0 →
      (c.calculate_zone6_profit pa pb v ld cost).abort_reason =
        some "Invalid input: prices and volume must be positive" ∧
      (c.calculate_zone6_profit pa pb v ld cost).is_profitable = false) ∧
    (capital ≠ 0 → p1.ask_price ≠ 0 → m.max_slippage_bps ≠ 0 →
      (m.calculate_2hop_arbitrage p1 p2 capital).isSome = true) := by
  constructor
  · intro h
    rw [zone6_invalid_eq c pa pb v ld cost h]
    exact ⟨rfl, rfl⟩
  · intro hc hask hmsb
    simp only [MultiHopArbitrageCalculator.calculate_2hop_arbitrage,
      MultiHopArbitrageCalculator._calculate_risk_score, qdiv?,
      if_neg hask, if_neg hc, if_neg hmsb, bind, Option.bind]
    split_ifs <;> rfl

/-- C4 witness: concrete invalid Zone-6 input and a concrete total 2-hop
evaluation. -/
theorem C4_witness :
    (((-1 : ℚ) ≤ 0 ∨ (1 : ℚ) ≤ 0 ∨ (100 : ℚ) ≤ 0) ∧
      (defaultV2.calculate_zone6_profit (-1) 1 100 ⟨100, 50, 50⟩
          ⟨5, 0, 0, 0⟩).abort_reason =
        some "Invalid input: prices and volume must be positive") ∧
    ((1 : ℚ) ≠ 0 ∧
      (defaultMultiHop.calculate_2hop_arbitrage
        ⟨"BTC", "USDT", ⟨"X", 0.001, 0, 1, 1000000, 0.001⟩, 1, 1, 0, 1000000⟩
        ⟨"BTC", "USDT", ⟨"Y", 0.001, 0, 1, 1000000, 0.001⟩, 1, 1, 0, 1000000⟩
        1).isSome = true) :=
  ⟨⟨Or.inl (by norm_num),
    ((C4_input_validation defaultV2 (-1) 1 100 ⟨100, 50, 50⟩ ⟨5, 0, 0, 0⟩
        defaultMultiHop
        ⟨"BTC", "USDT", ⟨"X", 0.001, 0, 1, 1000000, 0.001⟩, 1, 1, 0, 1000000⟩
        ⟨"BTC", "USDT", ⟨"Y", 0.001, 0, 1, 1000000, 0.001⟩, 1, 1, 0, 1000000⟩
        1).1 (Or.inl (by norm_num))).1⟩,
   ⟨by norm_num,
    (C4_input_validation defaultV2 (-1) 1 100 ⟨100, 50, 50⟩ ⟨5, 0, 0, 0⟩
        defaultMultiHop
        ⟨"BTC", "USDT", ⟨"X", 0.001, 0, 1, 1000000, 0.001⟩, 1, 1, 0, 1000000⟩
        ⟨"BTC", "USDT", ⟨"Y", 0.001, 0, 1, 1000000, 0.001⟩, 1, 1, 0, 1000000⟩
        1).2 (by norm_num) (by norm_num) (by norm_num [defaultMultiHop])⟩⟩

/-! ## Helper lemmas: the trade-size sweep fold -/

theorem sweepStep_some (c : OmniArbV2Calculator) (pa pb : ℚ)
    (ld : LiquidityDepth) (gas flash mv : ℚ) (hmv : 0 < mv) :
    ∀ (l : List ℚ), (∀ p ∈ l, 0 < p) → ∀ (bv : ℚ) (br : Zone6Result),
      ∃ bv' br',
        l.foldl (c.sweepStep pa pb ld gas flash mv) (some (bv, br)) =
          some (bv', br') ∧
        ((bv' = bv ∧ br' = br) ∨
          ∃ p ∈ l, bv' = mv * p ∧ br' = c.sweepEval pa pb ld gas flash (mv * p)) ∧
        br.net_profit ≤ br'.net_profit ∧
        ∀ p ∈ l, (c.sweepEval pa pb ld gas flash (mv * p)).net_profit ≤
          br'.net_profit := by
  intro l
  induction l with
  | nil =>
    intro _ bv br
    exact ⟨bv, br, rfl, Or.inl ⟨rfl, rfl⟩, le_refl _, by simp⟩
  | cons p t ih =>
    intro hpos bv br
    have hp : 0 < p := hpos p (List.mem_cons_self p t)
    have htv : ¬ mv * p ≤ 0 := not_le.mpr (mul_pos hmv hp)
    have hstep : c.sweepStep pa pb ld gas flash mv (some (bv, br)) p =
        if br.net_profit < (c.sweepEval pa pb ld gas flash (mv * p)).net_profit
        then some (mv * p, c.sweepEval pa pb ld gas flash (mv * p))
        else some (bv, br) := by
      simp only [OmniArbV2Calculator.sweepStep, if_neg htv]
    have htpos : ∀ q ∈ t, 0 < q := fun q hq => hpos q (List.mem_cons_of_mem p hq)
    by_cases hlt : br.net_profit < (c.sweepEval pa pb ld gas flash (mv * p)).net_profit
    · obtain ⟨bv', br', heq, hmem, hle, hall⟩ :=
        ih htpos (mv * p) (c.sweepEval pa pb ld gas flash (mv * p))
      refine ⟨bv', br', ?_, ?_, ?_, ?_⟩
      · rw [List.foldl_cons, hstep, if_pos hlt, heq]
      · rcases hmem with ⟨h1, h2⟩ | ⟨q, hq, h1, h2⟩
        · exact Or.inr ⟨p, List.mem_cons_self p t, h1, h2⟩
        · exact Or.inr ⟨q, List.mem_cons_of_mem p hq, h1, h2⟩
      · exact le_trans (le_of_lt hlt) hle
      · intro q hq
        rcases List.mem_cons.mp hq with rfl | hq'
        · exact hle
        · exact hall q hq'
    · obtain ⟨bv', br', heq, hmem, hle, hall⟩ := ih htpos bv br
      refine ⟨bv', br', ?_, ?_, hle, ?_⟩
      · rw [List.foldl_cons, hstep, if_neg hlt, heq]
      · rcases hmem with ⟨h1, h2⟩ | ⟨q, hq, h1, h2⟩
        · exact Or.inl ⟨h1, h2⟩
        · exact Or.inr ⟨q, List.mem_cons_of_mem p hq, h1, h2⟩
      · intro q hq
        rcases List.mem_cons.mp hq with rfl | hq'
        · exact le_trans (not_lt.mp hlt) hle
        · exact hall q hq'

theorem sweepStep_none (c : OmniArbV2Calculator) (pa pb : ℚ)
    (ld : LiquidityDepth) (gas flash mv : ℚ) (hmv : 0 < mv)
    (p : ℚ) (t : List ℚ) (hpos : ∀ q ∈ p :: t, 0 < q) :
    ∃ bv' br',
      (p :: t).foldl (c.sweepStep pa pb ld gas flash mv) none = some (bv', br') ∧
      (∃ q ∈ p :: t, bv' = mv * q ∧
        br' = c.sweepEval pa pb ld gas flash (mv * q)) ∧
      ∀ q ∈ p :: t, (c.sweepEval pa pb ld gas flash (mv * q)).net_profit ≤
        br'.net_profit := by
  have hp : 0 < p := hpos p (List.mem_cons_self p t)
  have htv : ¬ mv * p ≤ 0 := not_le.mpr (mul_pos hmv hp)
  have hstep : c.sweepStep pa pb ld gas flash mv none p =
      some (mv * p, c.sweepEval pa pb ld gas flash (mv * p)) := by
    simp only [OmniArbV2Calculator.sweepStep, if_neg htv]
  have htpos : ∀ q ∈ t, 0 < q := fun q hq => hpos q (List.mem_cons_of_mem p hq)
  obtain ⟨bv', br', heq, hmem, hle, hall⟩ :=
    sweepStep_some c pa pb ld gas flash mv hmv t htpos (mv * p)
      (c.sweepEval pa pb ld gas flash (mv * p))
  refine ⟨bv', br', ?_, ?_, ?_⟩
  · rw [List.foldl_cons, hstep, heq]
  · rcases hmem with ⟨h1, h2⟩ | ⟨q, hq, h1, h2⟩
    · exact ⟨p, List.mem_cons_self p t, h1, h2⟩
    · exact ⟨q, List.mem_cons_of_mem p hq, h1, h2⟩
  · intro q hq
    rcases List.mem_cons.mp hq with rfl | hq'
    · exact hle
    · exact hall q hq'

theorem sweep_fractions_pos : ∀ p ∈ sweep_fractions, (0 : ℚ) < p := by
  intro p hp
  fin_cases hp <;> norm_num

/-- C10: whenever the slippage-bounded maximum volume is positive,
`optimize_trade_size` returns one of the fixed candidate fractions
(1%..100%) of that maximum, evaluated by the Zone-6 engine with the
size-scaled flash fee, and its net profit is at least the Zone-6 net profit
of every candidate in the sweep. -/
theorem C10_optimize_trade_size (c : OmniArbV2Calculator) (pa pb : ℚ)
    (ld : LiquidityDepth) (gas flash : ℚ)
    (hmv : 0 < min (ld.get_optimal_trade_size c.target_slippage)
      (ld.tvl * c.max_tvl_pct)) :
    (∃ p ∈ sweep_fractions,
      (c.optimize_trade_size pa pb ld gas flash).1 =
        min (ld.get_optimal_trade_size c.target_slippage)
          (ld.tvl * c.max_tvl_pct) * p ∧
      (c.optimize_trade_size pa pb ld gas flash).2 =
        c.sweepEval pa pb ld gas flash
          (min (ld.get_optimal_trade_size c.target_slippage)
            (ld.tvl * c.max_tvl_pct) * p)) ∧
    ∀ p ∈ sweep_fractions,
      (c.sweepEval pa pb ld gas flash
        (min (ld.get_optimal_trade_size c.target_slippage)
          (ld.tvl * c.max_tvl_pct) * p)).net_profit ≤
      (c.optimize_trade_size pa pb ld gas flash).2.net_profit := by
  obtain ⟨bv', br', heq, hmem, hall⟩ :=
    sweepStep_none c pa pb ld gas flash
      (min (ld.get_optimal_trade_size c.target_slippage) (ld.tvl * c.max_tvl_pct))
      hmv 0.01 [0.02, 0.05, 0.10, 0.15, 0.20, 0.30, 0.50, 0.75, 1.0]
      (by
        intro q hq
        fin_cases hq <;> norm_num)
  have hopt : c.optimize_trade_size pa pb ld gas flash = (bv', br') := by
    simp only [OmniArbV2Calculator.optimize_trade_size, sweep_fractions]
    rw [show ([0.01, 0.02, 0.05, 0.10, 0.15, 0.20, 0.30, 0.50, 0.75, 1.0] :
        List ℚ) = 0.01 :: [0.02, 0.05, 0.10, 0.15, 0.20, 0.30, 0.50, 0.75, 1.0]
      from rfl, heq]
  rw [hopt]
  exact ⟨hmem, hall⟩

/-- C10 witness: a concrete pool where the sweep maximum is positive. -/
theorem C10_witness :
    0 < min ((⟨1000000, 500000, 500000⟩ : LiquidityDepth).get_optimal_trade_size
        defaultV2.target_slippage)
      ((⟨1000000, 500000, 500000⟩ : LiquidityDepth).tvl * defaultV2.max_tvl_pct) ∧
    ∀ p ∈ sweep_fractions,
      (defaultV2.sweepEval 2 1 ⟨1000000, 500000, 500000⟩ 5 0
        (min ((⟨1000000, 500000, 500000⟩ : LiquidityDepth).get_optimal_trade_size
            defaultV2.target_slippage)
          ((⟨1000000, 500000, 500000⟩ : LiquidityDepth).tvl * defaultV2.max_tvl_pct)
          * p)).net_profit ≤
      (defaultV2.optimize_trade_size 2 1 ⟨1000000, 500000, 500000⟩ 5 0).2.net_profit :=
  ⟨by norm_num [LiquidityDepth.get_optimal_trade_size, defaultV2, min_def],
    (C10_optimize_trade_size defaultV2 2 1 ⟨1000000, 500000, 500000⟩ 5 0
      (by norm_num [LiquidityDepth.get_optimal_trade_size, defaultV2, min_def])).2⟩

end TrifectaOmni
